import Mathlib

/-!
Shallow embedding of the analytics core of the COMP_430 trading-BI project
(`Backend/analytics.py` over the star schema of `Backend/database.py`).

Modelling conventions:
* A SQLAlchemy table is a Lean `List` of records; a query is a list
  traversal.  `db.query(TradeFact).filter(...).all()` becomes `List.filter`.
* `datetime` timestamps are seconds since an arbitrary epoch (`Nat`);
  `datetime.date()` is truncation `timestamp / 86400`, which ignores the
  time-of-day component.  `datetime.now()` is an explicit `now` parameter.
* Python floats (`total_value`, `price`, ...) are embedded as exact
  rationals `ℚ`; `numpy.sqrt` is `Real.sqrt` on the corresponding real.
* A Python dict result with keys that are present in one branch and absent
  in another is a structure whose sometimes-absent keys are `Option` fields
  (`none` = the key is not in the returned dict).
-/

namespace BI

/-- A row of the `trade_facts` table (`TradeFact` in `database.py`). -/
structure Trade where
  id : Nat
  timestamp : Nat
  quantity : ℚ
  price : ℚ
  total_value : ℚ
  symbol_id : Nat
  trader_id : Nat
  strategy_id : Nat
deriving DecidableEq, Repr

/-- A row of the `symbol_dim` table (`SymbolDimension`). -/
structure Symbol where
  id : Nat
  symbol : String
  asset_class : String
  sector : String
deriving DecidableEq, Repr

/-- A row of the `strategy_dim` table (`StrategyDimension`). -/
structure Strategy where
  id : Nat
  name : String
  type : String
  risk_profile : String
deriving DecidableEq, Repr

/-- Seconds per calendar day; `t.timestamp.date()` is division by this. -/
def secondsPerDay : Nat := 86400

/-- Embedding of `trade.timestamp.date()`: the calendar date of a trade, discarding the
time-of-day component of the timestamp. -/
def tradeDate (t : Trade) : Nat := t.timestamp / secondsPerDay

/-- Embedding of `start_date = end_date - timedelta(days=days)` with `end_date = now`
(truncated at the epoch, as `datetime` cannot go below its minimum). -/
def windowStart (now days : Nat) : Nat := now - days * secondsPerDay

/-- The query of `calculate_trading_metrics`:
`db.query(TradeFact).filter(TradeFact.timestamp >= start_date)` plus, for
each of `strategy_id` / `symbol_id`, a conditional equality filter.  The
Python guards are `if strategy_id:` / `if symbol_id:`, i.e. *truthiness*
tests: the filter is applied only when the argument is neither `None` nor
`0`. -/
def selected_trades (trades : List Trade) (strategy_id symbol_id : Option Nat)
    (now days : Nat) : List Trade :=
  trades.filter fun t =>
    decide (windowStart now days ≤ t.timestamp)
    && (match strategy_id with
        | none => true
        | some s => if s = 0 then true else decide (t.strategy_id = s))
    && (match symbol_id with
        | none => true
        | some s => if s = 0 then true else decide (t.symbol_id = s))

/-- One entry of the `daily_values` list built by
`calculate_trading_metrics`: `{"date": ..., "value": ..., "trade_count": ...}`. -/
structure DailyValue where
  date : Nat
  value : ℚ
  trade_count : Nat
deriving DecidableEq, Repr

/-- The distinct trading dates of a trade list, in ascending order: the key
set of the `trade_dates` dict, as traversed by `sorted(trade_dates.items())`. -/
def tradingDates (trades : List Trade) : List Nat :=
  List.insertionSort (· ≤ ·) (trades.map tradeDate).dedup

/-- The `daily_values` list of `calculate_trading_metrics`: one entry per
distinct calendar date present among `trades` (the dict `trade_dates` groups
trades by `trade.timestamp.date()`; `sorted(...)` orders the dates
ascending), carrying the summed `total_value` and the trade count of that
date. -/
def daily_values (trades : List Trade) : List DailyValue :=
  (tradingDates trades).map fun d =>
    let dayTrades := trades.filter fun t => decide (tradeDate t = d)
    { date := d
      value := (dayTrades.map Trade.total_value).sum
      trade_count := dayTrades.length }

/-- Embedding of `np.diff(values) / values[:-1]`: the day-over-day percentage changes of
consecutive daily values.  NOTE: in numpy a zero entry of `values[:-1]`
does not raise — it produces `inf`/`nan` which then poisons `np.std`; in
this exact embedding `ℚ` division by zero is total (`x / 0 = 0`), so the
divergence is tracked separately by `volatilityDivByZero`. -/
def pctChanges (values : List ℚ) : List ℚ :=
  List.zipWith (fun prev cur => (cur - prev) / prev) values values.tail

/-- Arithmetic mean of a list of rationals (`np.mean`; `0` on `[]`). -/
def listMean (l : List ℚ) : ℚ := l.sum / l.length

/-- Population variance of a list of rationals: the mean squared deviation
from the mean (what `np.std` takes the square root of, `ddof = 0`). -/
def popVariance (l : List ℚ) : ℚ :=
  ((l.map fun x => (x - listMean l) ^ 2).sum) / l.length

/-- Embedding of `np.std` with default `ddof = 0`: the population standard deviation. -/
noncomputable def np_std (l : List ℚ) : ℝ := Real.sqrt (popVariance l)

/-- True exactly when the volatility computation of
`calculate_trading_metrics` divides by a zero previous-day value:
`len(daily_values) > 1` and some non-final entry of the daily value sequence
is `0`.  At such inputs numpy emits `inf`/`nan` from
`np.diff(values) / values[:-1]` and `np.std` then returns `nan`, so an
undefined value propagates into the returned `volatility`; the source has
no guard at this site. -/
def volatilityDivByZero (trades : List Trade) (strategy_id symbol_id : Option Nat)
    (now days : Nat) : Bool :=
  let sel := selected_trades trades strategy_id symbol_id now days
  let values := (daily_values sel).map DailyValue.value
  decide (1 < (daily_values sel).length) && values.dropLast.any (fun v => decide (v = 0))

/-- The dict returned by `calculate_trading_metrics`.  In the empty-set
branch the Python dict carries only `trade_count`, `total_value`,
`avg_trade_size` and `metrics_period_days`; the `volatility` and
`daily_values` keys exist only in the non-empty branch, hence the `Option`
fields. -/
structure Metrics where
  trade_count : Nat
  total_value : ℚ
  avg_trade_size : ℚ
  volatility : Option ℝ
  metrics_period_days : Nat
  daily_values : Option (List DailyValue)

/-- Embedding of `calculate_trading_metrics(db, strategy_id=None, symbol_id=None, days=30)`
of `analytics.py`.  The `db` session is the list `trades`; `datetime.now()`
is the parameter `now`. -/
noncomputable def calculate_trading_metrics (trades : List Trade)
    (strategy_id symbol_id : Option Nat) (now days : Nat) : Metrics :=
  let sel := selected_trades trades strategy_id symbol_id now days
  if sel.isEmpty then
    { trade_count := 0
      total_value := 0
      avg_trade_size := 0
      volatility := none
      metrics_period_days := days
      daily_values := none }
  else
    let trade_count := sel.length
    let total_value := (sel.map Trade.total_value).sum
    let avg_trade_size : ℚ := if trade_count > 0 then total_value / trade_count else 0
    let daily := daily_values sel
    let volatility : ℝ :=
      if 1 < daily.length then
        np_std (pctChanges (daily.map DailyValue.value)) * Real.sqrt 252
      else 0
    { trade_count := trade_count
      total_value := total_value
      avg_trade_size := avg_trade_size
      volatility := some volatility
      metrics_period_days := days
      daily_values := some daily }

/-- A row of the joined query of `analyze_strategy_performance`
(`TradeFact.timestamp, TradeFact.total_value, SymbolDimension.symbol,
SymbolDimension.asset_class`), as rebuilt into the DataFrame columns
`timestamp, date, value, symbol, asset_class`. -/
structure TradeRow where
  timestamp : Nat
  date : Nat
  value : ℚ
  symbol : String
  asset_class : String
deriving DecidableEq, Repr

/-- Ordering of joined rows by trade timestamp (`order_by(TradeFact.timestamp)`). -/
def tsLE (a b : TradeRow) : Prop := a.timestamp ≤ b.timestamp

instance : DecidableRel tsLE := fun a b => Nat.decLe a.timestamp b.timestamp

instance : IsTotal TradeRow tsLE := ⟨fun a b => Nat.le_total a.timestamp b.timestamp⟩

instance : IsTrans TradeRow tsLE := ⟨fun _ _ _ h h' => Nat.le_trans h h'⟩

/-- The joined, filtered, timestamp-ordered trade rows of
`analyze_strategy_performance`: trades of the strategy with
`start_date <= timestamp <= end_date`, inner-joined to `symbol_dim` on
`TradeFact.symbol_id == SymbolDimension.id` (a trade without a matching
symbol row is dropped by the inner join). -/
def strategy_trades (trades : List Trade) (symbols : List Symbol)
    (strategy_id now days : Nat) : List TradeRow :=
  let filtered := trades.filter fun t =>
    decide (t.strategy_id = strategy_id)
    && decide (windowStart now days ≤ t.timestamp)
    && decide (t.timestamp ≤ now)
  let joined := filtered.filterMap fun t =>
    (symbols.find? fun s => s.id == t.symbol_id).map fun s =>
      { timestamp := t.timestamp
        date := tradeDate t
        value := t.total_value
        symbol := s.symbol
        asset_class := s.asset_class }
  List.insertionSort tsLE joined

/-- One entry of `daily_performance`: `{"date": ..., "value": ...}`. -/
structure DailyPerf where
  date : Nat
  value : ℚ
deriving DecidableEq, Repr

/-- One entry of `asset_class_breakdown`. -/
structure AssetClassEntry where
  asset_class : String
  value : ℚ
  percentage : ℚ
deriving DecidableEq, Repr

/-- One entry of `top_symbols`. -/
structure SymbolEntry where
  symbol : String
  value : ℚ
  percentage : ℚ
deriving DecidableEq, Repr

/-- Embedding of the pandas groupby of value by date: one `(date, sum)` row
per distinct date, in ascending date order (pandas `groupby` sorts keys). -/
def daily_perf (rows : List TradeRow) : List DailyPerf :=
  (List.insertionSort (· ≤ ·) (rows.map TradeRow.date).dedup).map fun d =>
    { date := d
      value := ((rows.filter fun r => decide (r.date = d)).map TradeRow.value).sum }

/-- Embedding of the pandas groupby of value by symbol: one
`(symbol, sum)` pair per distinct ticker, keys in ascending order. -/
def groupedBySymbol (rows : List TradeRow) : List (String × ℚ) :=
  (List.insertionSort (· ≤ ·) (rows.map TradeRow.symbol).dedup).map fun s =>
    (s, ((rows.filter fun r => decide (r.symbol = s)).map TradeRow.value).sum)

/-- Descending order on group sums, as in the pandas descending sort by value. -/
def valueDesc (a b : String × ℚ) : Prop := b.2 ≤ a.2

instance : DecidableRel valueDesc := fun a b => Rat.instDecidableLe b.2 a.2

instance : IsTotal (String × ℚ) valueDesc := ⟨fun a b => le_total b.2 a.2⟩

instance : IsTrans (String × ℚ) valueDesc := ⟨fun _ _ _ h h' => le_trans h' h⟩

/-- The `top_symbols` list of `analyze_strategy_performance`: per-symbol
sums, sorted descending by summed value, truncated by `head(10)`, each
annotated with the ratio of its value to the grand total, times 100. -/
def top_symbols_list (rows : List TradeRow) : List SymbolEntry :=
  let grandTotal := (rows.map TradeRow.value).sum
  ((List.insertionSort valueDesc (groupedBySymbol rows)).take 10).map fun p =>
    { symbol := p.1, value := p.2, percentage := p.2 / grandTotal * 100 }

/-- The `asset_class_breakdown` list: per-asset-class sums (keys ascending,
as pandas `groupby` yields them), each annotated with its percentage of the
grand total. -/
def asset_class_breakdown_list (rows : List TradeRow) : List AssetClassEntry :=
  let grandTotal := (rows.map TradeRow.value).sum
  (List.insertionSort (· ≤ ·) (rows.map TradeRow.asset_class).dedup).map fun c =>
    let v := ((rows.filter fun r => decide (r.asset_class = c)).map TradeRow.value).sum
    { asset_class := c, value := v, percentage := v / grandTotal * 100 }

/-- The `performance_summary` dict.  In the empty branch it has only the
keys `total_value` and `daily_average`; `trade_count` and `unique_symbols`
exist only in the non-empty branch, hence the `Option` fields. -/
structure PerfSummary where
  total_value : ℚ
  daily_average : ℚ
  trade_count : Option Nat
  unique_symbols : Option Nat
deriving DecidableEq, Repr

/-- The successful return dict of `analyze_strategy_performance`.  In the
empty branch the Python dict has no `asset_class_breakdown` or
`top_symbols` key at all (only the non-empty branch adds them), hence the
`Option` fields; `daily_performance` is present in both branches (as `[]`
when empty). -/
structure PerfReport where
  strategy_name : String
  strategy_type : String
  risk_profile : String
  trade_count : Nat
  performance_summary : PerfSummary
  asset_class_breakdown : Option (List AssetClassEntry)
  top_symbols : Option (List SymbolEntry)
  daily_performance : List DailyPerf
deriving DecidableEq, Repr

/-- Result of `analyze_strategy_performance`: either the
`{"error": "Strategy not found"}` dict or a performance report. -/
inductive PerfResult where
  | notFound
  | ok (report : PerfReport)
deriving DecidableEq, Repr

/-- Embedding of `analyze_strategy_performance(db, strategy_id, days=90)` of
`analytics.py`.  The strategy lookup is
`db.query(StrategyDimension).filter(StrategyDimension.id == strategy_id).first()`. -/
def analyze_strategy_performance (strategies : List Strategy)
    (symbols : List Symbol) (trades : List Trade)
    (strategy_id now days : Nat) : PerfResult :=
  match strategies.find? fun s => s.id == strategy_id with
  | none => .notFound
  | some strategy =>
    let rows := strategy_trades trades symbols strategy_id now days
    if rows.isEmpty then
      .ok { strategy_name := strategy.name
            strategy_type := strategy.type
            risk_profile := strategy.risk_profile
            trade_count := 0
            performance_summary :=
              { total_value := 0
                daily_average := 0
                trade_count := none
                unique_symbols := none }
            asset_class_breakdown := none
            top_symbols := none
            daily_performance := [] }
    else
      let grandTotal := (rows.map TradeRow.value).sum
      let dailyList := daily_perf rows
      .ok { strategy_name := strategy.name
            strategy_type := strategy.type
            risk_profile := strategy.risk_profile
            trade_count := rows.length
            performance_summary :=
              { total_value := grandTotal
                daily_average :=
                  if 0 < dailyList.length then grandTotal / dailyList.length else 0
                trade_count := some rows.length
                unique_symbols := some (rows.map TradeRow.symbol).dedup.length }
            asset_class_breakdown := some (asset_class_breakdown_list rows)
            top_symbols := some (top_symbols_list rows)
            daily_performance := dailyList }

/-! Spec-side definitions, written from the specification's words, to be
compared with the code-side definitions above. -/

/-- The selection the spec describes for `calculateTradingMetrics`: all
trades with `timestamp >= now - windowDays` matching every *supplied*
equality filter, an absent filter imposing no constraint.  (Unlike the
code, a supplied filter value is always enforced, `0` included.) -/
def spec_selected_trades (trades : List Trade) (strategy_id symbol_id : Option Nat)
    (now days : Nat) : List Trade :=
  trades.filter fun t =>
    decide (windowStart now days ≤ t.timestamp)
    && (match strategy_id with
        | none => true
        | some s => decide (t.strategy_id = s))
    && (match symbol_id with
        | none => true
        | some s => decide (t.symbol_id = s))

/-- The spec's day-over-day percentage change sequence, stated by index:
entry `i` is `(v[i+1] - v[i]) / v[i]`. -/
def dayOverDayChanges (values : List ℚ) : List ℚ :=
  (List.range (values.length - 1)).map fun i =>
    (values.getD (i + 1) 0 - values.getD i 0) / values.getD i 0

/-- The spec's population standard deviation: the square root of the mean
squared deviation from the mean. -/
noncomputable def popStdDev (l : List ℚ) : ℝ :=
  Real.sqrt ((((l.map fun x => (x - l.sum / l.length) ^ 2).sum) / l.length : ℚ))

/-! Helper lemmas about the embedded definitions. -/

theorem selected_eq_spec_selected (trades : List Trade)
    (strategy_id symbol_id : Option Nat) (now days : Nat)
    (hs : strategy_id ≠ some 0) (hy : symbol_id ≠ some 0) :
    selected_trades trades strategy_id symbol_id now days
      = spec_selected_trades trades strategy_id symbol_id now days := by
  unfold selected_trades spec_selected_trades
  congr 1
  funext t
  cases strategy_id with
  | none =>
    cases symbol_id with
    | none => rfl
    | some s =>
      have : s ≠ 0 := fun h => hy (by rw [h])
      simp [this]
  | some s =>
    have hs0 : s ≠ 0 := fun h => hs (by rw [h])
    cases symbol_id with
    | none => simp [hs0]
    | some s' =>
      have : s' ≠ 0 := fun h => hy (by rw [h])
      simp [hs0, this]

theorem mem_spec_selected_trades {trades : List Trade}
    {strategy_id symbol_id : Option Nat} {now days : Nat} {t : Trade} :
    t ∈ spec_selected_trades trades strategy_id symbol_id now days ↔
      t ∈ trades ∧ windowStart now days ≤ t.timestamp ∧
      (∀ s, strategy_id = some s → t.strategy_id = s) ∧
      (∀ s, symbol_id = some s → t.symbol_id = s) := by
  unfold spec_selected_trades
  rw [List.mem_filter]
  cases strategy_id <;> cases symbol_id
  all_goals simp
  all_goals tauto

theorem tradingDates_nodup (l : List Trade) : (tradingDates l).Nodup :=
  (List.perm_insertionSort (· ≤ ·) _).symm.nodup (List.nodup_dedup _)

theorem tradingDates_sorted (l : List Trade) :
    List.Sorted (· < ·) (tradingDates l) :=
  (List.sorted_insertionSort (· ≤ ·) _).lt_of_le (tradingDates_nodup l)

theorem mem_tradingDates {l : List Trade} {d : Nat} :
    d ∈ tradingDates l ↔ d ∈ l.map tradeDate :=
  (List.perm_insertionSort (· ≤ ·) _).mem_iff.trans (List.mem_dedup)

theorem daily_values_map_date (l : List Trade) :
    (daily_values l).map DailyValue.date = tradingDates l := by
  simp [daily_values, List.map_map, Function.comp_def]

theorem mem_daily_values {l : List Trade} {e : DailyValue} :
    e ∈ daily_values l ↔ ∃ d ∈ tradingDates l,
      e = { date := d
            value := ((l.filter fun t => decide (tradeDate t = d)).map Trade.total_value).sum
            trade_count := (l.filter fun t => decide (tradeDate t = d)).length } := by
  unfold daily_values
  rw [List.mem_map]
  constructor
  · rintro ⟨d, hd, rfl⟩
    exact ⟨d, hd, rfl⟩
  · rintro ⟨d, hd, rfl⟩
    exact ⟨d, hd, rfl⟩

/-- Closed form of `calculate_trading_metrics` in the non-empty branch. -/
theorem calculate_trading_metrics_of_ne (trades : List Trade)
    (strategy_id symbol_id : Option Nat) (now days : Nat)
    (h : selected_trades trades strategy_id symbol_id now days ≠ []) :
    calculate_trading_metrics trades strategy_id symbol_id now days =
      { trade_count := (selected_trades trades strategy_id symbol_id now days).length
        total_value :=
          ((selected_trades trades strategy_id symbol_id now days).map Trade.total_value).sum
        avg_trade_size :=
          ((selected_trades trades strategy_id symbol_id now days).map Trade.total_value).sum
            / (selected_trades trades strategy_id symbol_id now days).length
        volatility := some
          (if 1 < (daily_values (selected_trades trades strategy_id symbol_id now days)).length
            then np_std (pctChanges
                ((daily_values (selected_trades trades strategy_id symbol_id now days)).map
                  DailyValue.value)) * Real.sqrt 252
            else 0)
        metrics_period_days := days
        daily_values := some (daily_values (selected_trades trades strategy_id symbol_id now days)) } := by
  have he : (selected_trades trades strategy_id symbol_id now days).isEmpty = false := by
    simpa [List.isEmpty_iff] using h
  have hp : 0 < (selected_trades trades strategy_id symbol_id now days).length :=
    List.length_pos.mpr h
  unfold calculate_trading_metrics
  simp [he, hp]

theorem pctChanges_eq_dayOverDayChanges : ∀ l : List ℚ, pctChanges l = dayOverDayChanges l
  | [] => rfl
  | [_] => rfl
  | v :: w :: ws => by
    have ih := pctChanges_eq_dayOverDayChanges (w :: ws)
    show (w - v) / v :: pctChanges (w :: ws) = dayOverDayChanges (v :: w :: ws)
    rw [ih]
    show _ = (List.range (ws.length + 1)).map _
    rw [List.range_succ_eq_map]
    simp only [List.map_cons, List.map_map]
    rfl

theorem np_std_eq_popStdDev (l : List ℚ) : np_std l = popStdDev l := rfl

theorem sum_map_ite_eq {D : List Nat} (hD : D.Nodup) {d0 : Nat} (x : ℚ) (hd0 : d0 ∈ D) :
    (D.map fun d => if d0 = d then x else 0).sum = x := by
  induction D with
  | nil => cases hd0
  | cons a D ih =>
    obtain ⟨ha, hD'⟩ := List.nodup_cons.mp hD
    rcases List.mem_cons.mp hd0 with rfl | hmem
    · have hz : (D.map fun d => if d0 = d then x else 0).sum = 0 := by
        apply List.sum_eq_zero
        intro y hy
        obtain ⟨d, hd, rfl⟩ := List.mem_map.mp hy
        have : d0 ≠ d := fun hEq => ha (hEq ▸ hd)
        simp [this]
      simp [hz]
    · have : d0 ≠ a := fun hEq => ha (hEq ▸ hmem)
      simp [this, ih hD' hmem]

theorem sum_map_fiberwise (l : List Trade) (D : List Nat) (hD : D.Nodup)
    (hcov : ∀ t ∈ l, tradeDate t ∈ D) :
    (D.map fun d =>
      ((l.filter fun t => decide (tradeDate t = d)).map Trade.total_value).sum).sum
      = (l.map Trade.total_value).sum := by
  induction l with
  | nil =>
    simp only [List.filter_nil, List.map_nil, List.sum_nil]
    exact List.sum_eq_zero fun y hy => by
      obtain ⟨d, -, rfl⟩ := List.mem_map.mp hy
      rfl
  | cons t l ih =>
    have hcov' : ∀ s ∈ l, tradeDate s ∈ D := fun s hs => hcov s (List.mem_cons_of_mem t hs)
    have hstep : (D.map fun d =>
          (((t :: l).filter fun s => decide (tradeDate s = d)).map Trade.total_value).sum)
        = (D.map fun d => (if tradeDate t = d then t.total_value else 0)
          + ((l.filter fun s => decide (tradeDate s = d)).map Trade.total_value).sum) := by
      apply List.map_congr_left
      intro d _
      by_cases hd : tradeDate t = d
      · simp [List.filter_cons, hd]
      · simp [List.filter_cons, hd]
    rw [hstep, List.sum_map_add, sum_map_ite_eq hD t.total_value (hcov t (List.mem_cons_self t l)),
      ih hcov']
    simp

theorem daily_values_map_value (l : List Trade) :
    (daily_values l).map DailyValue.value
      = (tradingDates l).map fun d =>
          ((l.filter fun t => decide (tradeDate t = d)).map Trade.total_value).sum := by
  simp [daily_values, List.map_map, Function.comp_def]

/-! The claims. -/

/-- C1 as frozen is falsified by the Python truthiness test `if strategy_id:`:
with the supplied filter `strategyId = 0` the code ignores the filter and
keeps a trade whose `strategy_id` is `1`, while the claimed selection
(`spec_selected_trades`) excludes it. -/
theorem C1_counterexample :
    selected_trades [⟨1, 86400, 1, 1, 1, 1, 1, 1⟩] (some 0) none 86400 0
        = [⟨1, 86400, 1, 1, 1, 1, 1, 1⟩] ∧
    spec_selected_trades [⟨1, 86400, 1, 1, 1, 1, 1, 1⟩] (some 0) none 86400 0 = [] := by
  constructor <;> rfl

/-- C1 (amended: each supplied filter value nonzero): the selected set is
exactly the trades in the window satisfying every supplied equality filter,
and on a non-empty selection `tradeCount`, `totalValue` and `avgTradeSize`
are the size, the sum of `total_value`, and their quotient. -/
theorem C1_selection_and_aggregates (trades : List Trade)
    (strategy_id symbol_id : Option Nat) (now days : Nat)
    (hs : strategy_id ≠ some 0) (hy : symbol_id ≠ some 0) :
    (∀ t, t ∈ selected_trades trades strategy_id symbol_id now days ↔
        t ∈ trades ∧ windowStart now days ≤ t.timestamp ∧
        (∀ s, strategy_id = some s → t.strategy_id = s) ∧
        (∀ s, symbol_id = some s → t.symbol_id = s)) ∧
    (selected_trades trades strategy_id symbol_id now days ≠ [] →
      (calculate_trading_metrics trades strategy_id symbol_id now days).trade_count
          = (selected_trades trades strategy_id symbol_id now days).length ∧
      (calculate_trading_metrics trades strategy_id symbol_id now days).total_value
          = ((selected_trades trades strategy_id symbol_id now days).map Trade.total_value).sum ∧
      (calculate_trading_metrics trades strategy_id symbol_id now days).avg_trade_size
          = (calculate_trading_metrics trades strategy_id symbol_id now days).total_value
            / (calculate_trading_metrics trades strategy_id symbol_id now days).trade_count) := by
  have hspec := selected_eq_spec_selected trades strategy_id symbol_id now days hs hy
  constructor
  · intro t
    rw [hspec]
    exact mem_spec_selected_trades
  · intro h
    rw [calculate_trading_metrics_of_ne trades strategy_id symbol_id now days h]
    exact ⟨rfl, rfl, rfl⟩

theorem C1_witness :
    ((some 1 : Option Nat) ≠ some 0) ∧ ((none : Option Nat) ≠ some 0) ∧
    (calculate_trading_metrics [⟨1, 172800, 1, 50, 100, 2, 3, 1⟩] (some 1) none 259200 30).trade_count
      = 1 := by
  refine ⟨by decide, by decide, ?_⟩
  have h := C1_selection_and_aggregates [⟨1, 172800, 1, 50, 100, 2, 3, 1⟩] (some 1) none
    259200 30 (by decide) (by decide)
  rw [(h.2 (by decide)).1]
  rfl

/-- C2 as frozen is falsified on the key shape: the empty-set branch of the
code returns a dict *without* a `daily_values` key, not one with an empty
daily series. -/
theorem C2_counterexample :
    (calculate_trading_metrics [] none none 0 30).daily_values ≠ some [] := by
  decide

/-- C2 (amended): if zero trades match, the result is
`tradeCount = 0`, `totalValue = 0`, `avgTradeSize = 0` (the average-size
division cannot fault: the zero is returned literally), the requested
window length, and *no* daily series or volatility field at all (the keys
are absent from the returned dict rather than present and empty). -/
theorem C2_empty_metrics (trades : List Trade) (strategy_id symbol_id : Option Nat)
    (now days : Nat) (h : selected_trades trades strategy_id symbol_id now days = []) :
    calculate_trading_metrics trades strategy_id symbol_id now days =
      { trade_count := 0
        total_value := 0
        avg_trade_size := 0
        volatility := none
        metrics_period_days := days
        daily_values := none } := by
  unfold calculate_trading_metrics
  simp [h]

theorem C2_witness :
    selected_trades [⟨1, 0, 1, 1, 1, 1, 1, 1⟩] (some 5) none 864000 1 = [] ∧
    calculate_trading_metrics [⟨1, 0, 1, 1, 1, 1, 1, 1⟩] (some 5) none 864000 1 =
      { trade_count := 0
        total_value := 0
        avg_trade_size := 0
        volatility := none
        metrics_period_days := 1
        daily_values := none } :=
  ⟨by decide, C2_empty_metrics [⟨1, 0, 1, 1, 1, 1, 1, 1⟩] (some 5) none 864000 1 (by decide)⟩

/-- C4: the claim's guard does not exist in the code.  At two trades on
consecutive days with daily sums `0` and `100`, the volatility path is
taken (`len(daily_values) > 1`) and `np.diff(values) / values[:-1]`
divides `100 - 0` by the zero previous-day sum: numpy produces `inf`, and
`np.std` then turns the result into `nan`, which is returned — an
undefined value propagates.  The theorem evaluates the embedded code at
this failing input: the division-by-zero detector fires and the non-final
daily value is exactly `0`. -/
theorem C4_unguarded_zero_division :
    volatilityDivByZero
        [⟨1, 0, 1, 0, 0, 2, 3, 1⟩, ⟨2, 86400, 1, 100, 100, 2, 3, 1⟩] none none 172800 30 = true ∧
    ((daily_values (selected_trades
        [⟨1, 0, 1, 0, 0, 2, 3, 1⟩, ⟨2, 86400, 1, 100, 100, 2, 3, 1⟩] none none 172800 30)).map
          DailyValue.value).dropLast = [0] := by
  constructor <;>
    norm_num [volatilityDivByZero, selected_trades, windowStart, secondsPerDay, daily_values,
      tradingDates, tradeDate, List.insertionSort, List.orderedInsert, List.dedup]

/-- C3: on a non-empty selection whose non-final daily sums are nonzero
(the zero-denominator case is the defect recorded by C4; there numpy
produces `nan` rather than a standard deviation), the returned volatility
is `0` for fewer than 2 distinct trading days, and otherwise is the
population standard deviation of the day-over-day percentage changes
`(v[i] - v[i-1]) / v[i-1]` of the date-ordered daily sums times
`sqrt 252`; it is non-negative in both cases. -/
theorem C3_volatility (trades : List Trade) (strategy_id symbol_id : Option Nat)
    (now days : Nat)
    (h : selected_trades trades strategy_id symbol_id now days ≠ [])
    (hz : ∀ v ∈ ((daily_values (selected_trades trades strategy_id symbol_id now days)).map
        DailyValue.value).dropLast, v ≠ 0) :
    ∃ vol, (calculate_trading_metrics trades strategy_id symbol_id now days).volatility
        = some vol ∧
      ((daily_values (selected_trades trades strategy_id symbol_id now days)).length < 2 →
        vol = 0) ∧
      (2 ≤ (daily_values (selected_trades trades strategy_id symbol_id now days)).length →
        vol = popStdDev (dayOverDayChanges
            ((daily_values (selected_trades trades strategy_id symbol_id now days)).map
              DailyValue.value)) * Real.sqrt 252) ∧
      0 ≤ vol := by
  rw [calculate_trading_metrics_of_ne trades strategy_id symbol_id now days h]
  refine ⟨_, rfl, ?_, ?_, ?_⟩
  · intro hlt
    rw [if_neg (by omega)]
  · intro hge
    rw [if_pos (by omega), np_std_eq_popStdDev, pctChanges_eq_dayOverDayChanges]
  · split_ifs with hc
    · exact mul_nonneg (Real.sqrt_nonneg _) (Real.sqrt_nonneg _)
    · exact le_refl 0

theorem C3_witness :
    selected_trades [⟨1, 0, 1, 100, 100, 2, 3, 1⟩, ⟨2, 86400, 1, 200, 200, 2, 3, 1⟩]
        none none 172800 30 ≠ [] ∧
    (∀ v ∈ ((daily_values (selected_trades
        [⟨1, 0, 1, 100, 100, 2, 3, 1⟩, ⟨2, 86400, 1, 200, 200, 2, 3, 1⟩]
        none none 172800 30)).map DailyValue.value).dropLast, v ≠ 0) ∧
    ∃ vol, (calculate_trading_metrics
        [⟨1, 0, 1, 100, 100, 2, 3, 1⟩, ⟨2, 86400, 1, 200, 200, 2, 3, 1⟩]
        none none 172800 30).volatility = some vol ∧ 0 ≤ vol := by
  have hne : selected_trades [⟨1, 0, 1, 100, 100, 2, 3, 1⟩, ⟨2, 86400, 1, 200, 200, 2, 3, 1⟩]
      none none 172800 30 ≠ [] := by decide
  have hz : ∀ v ∈ ((daily_values (selected_trades
      [⟨1, 0, 1, 100, 100, 2, 3, 1⟩, ⟨2, 86400, 1, 200, 200, 2, 3, 1⟩]
      none none 172800 30)).map DailyValue.value).dropLast, v ≠ 0 := by
    simp [daily_values, tradingDates, tradeDate, selected_trades, windowStart, secondsPerDay,
      List.insertionSort, List.orderedInsert, List.dedup]
  obtain ⟨vol, h1, -, -, h4⟩ := C3_volatility
    [⟨1, 0, 1, 100, 100, 2, 3, 1⟩, ⟨2, 86400, 1, 200, 200, 2, 3, 1⟩] none none 172800 30 hne hz
  exact ⟨hne, hz, vol, h1, h4⟩

/-- C5: on a non-empty selection the daily series groups the selected
trades by the calendar date of their timestamp, has exactly one entry per
distinct date present (strictly increasing dates, hence ascending and
duplicate-free, with no synthesized dates), and each entry carries the
date, the summed `total_value` of that date, and that date's trade count. -/
theorem C5_daily_series (trades : List Trade) (strategy_id symbol_id : Option Nat)
    (now days : Nat)
    (h : selected_trades trades strategy_id symbol_id now days ≠ []) :
    ∃ l, (calculate_trading_metrics trades strategy_id symbol_id now days).daily_values
        = some l ∧
      List.Sorted (· < ·) (l.map DailyValue.date) ∧
      (∀ d, d ∈ l.map DailyValue.date ↔
        d ∈ (selected_trades trades strategy_id symbol_id now days).map tradeDate) ∧
      (∀ e ∈ l,
        e.value = (((selected_trades trades strategy_id symbol_id now days).filter
            fun t => decide (tradeDate t = e.date)).map Trade.total_value).sum ∧
        e.trade_count = ((selected_trades trades strategy_id symbol_id now days).filter
            fun t => decide (tradeDate t = e.date)).length) := by
  rw [calculate_trading_metrics_of_ne trades strategy_id symbol_id now days h]
  refine ⟨daily_values (selected_trades trades strategy_id symbol_id now days), rfl, ?_, ?_, ?_⟩
  · rw [daily_values_map_date]
    exact tradingDates_sorted _
  · intro d
    rw [daily_values_map_date]
    exact mem_tradingDates
  · intro e he
    obtain ⟨d, -, rfl⟩ := mem_daily_values.mp he
    exact ⟨rfl, rfl⟩

theorem C5_witness :
    selected_trades [⟨1, 0, 1, 100, 100, 2, 3, 1⟩, ⟨2, 86400, 1, 200, 200, 2, 3, 1⟩]
        none none 172800 30 ≠ [] ∧
    ∃ l, (calculate_trading_metrics
        [⟨1, 0, 1, 100, 100, 2, 3, 1⟩, ⟨2, 86400, 1, 200, 200, 2, 3, 1⟩]
        none none 172800 30).daily_values = some l ∧
      List.Sorted (· < ·) (l.map DailyValue.date) := by
  have hne : selected_trades [⟨1, 0, 1, 100, 100, 2, 3, 1⟩, ⟨2, 86400, 1, 200, 200, 2, 3, 1⟩]
      none none 172800 30 ≠ [] := by decide
  obtain ⟨l, h1, h2, -, -⟩ := C5_daily_series
    [⟨1, 0, 1, 100, 100, 2, 3, 1⟩, ⟨2, 86400, 1, 200, 200, 2, 3, 1⟩] none none 172800 30 hne
  exact ⟨hne, l, h1, h2⟩

/-- C6: on a non-empty selection the sum of the per-day summed values of
the daily series equals the `totalValue` of the same result — the daily
rollup conserves the total. -/
theorem C6_daily_rollup_conserves_total (trades : List Trade)
    (strategy_id symbol_id : Option Nat) (now days : Nat)
    (h : selected_trades trades strategy_id symbol_id now days ≠ []) :
    ∃ l, (calculate_trading_metrics trades strategy_id symbol_id now days).daily_values
        = some l ∧
      (l.map DailyValue.value).sum
        = (calculate_trading_metrics trades strategy_id symbol_id now days).total_value := by
  rw [calculate_trading_metrics_of_ne trades strategy_id symbol_id now days h]
  refine ⟨daily_values (selected_trades trades strategy_id symbol_id now days), rfl, ?_⟩
  rw [daily_values_map_value]
  exact sum_map_fiberwise _ _ (tradingDates_nodup _)
    fun t ht => mem_tradingDates.mpr (List.mem_map_of_mem tradeDate ht)

theorem C6_witness :
    selected_trades [⟨1, 0, 1, 100, 100, 2, 3, 1⟩, ⟨2, 86400, 1, 200, 200, 2, 3, 1⟩]
        none none 172800 30 ≠ [] ∧
    ∃ l, (calculate_trading_metrics
        [⟨1, 0, 1, 100, 100, 2, 3, 1⟩, ⟨2, 86400, 1, 200, 200, 2, 3, 1⟩]
        none none 172800 30).daily_values = some l ∧
      (l.map DailyValue.value).sum = (calculate_trading_metrics
        [⟨1, 0, 1, 100, 100, 2, 3, 1⟩, ⟨2, 86400, 1, 200, 200, 2, 3, 1⟩]
        none none 172800 30).total_value := by
  have hne : selected_trades [⟨1, 0, 1, 100, 100, 2, 3, 1⟩, ⟨2, 86400, 1, 200, 200, 2, 3, 1⟩]
      none none 172800 30 ≠ [] := by decide
  exact ⟨hne, C6_daily_rollup_conserves_total
    [⟨1, 0, 1, 100, 100, 2, 3, 1⟩, ⟨2, 86400, 1, 200, 200, 2, 3, 1⟩] none none 172800 30 hne⟩

/-- C7: an unknown `strategyId` yields the distinct not-found result and
never a zero-filled performance report. -/
theorem C7_strategy_not_found (strategies : List Strategy) (symbols : List Symbol)
    (trades : List Trade) (strategy_id now days : Nat)
    (h : ∀ s ∈ strategies, s.id ≠ strategy_id) :
    analyze_strategy_performance strategies symbols trades strategy_id now days
        = PerfResult.notFound ∧
    ∀ report, analyze_strategy_performance strategies symbols trades strategy_id now days
        ≠ PerfResult.ok report := by
  have hf : strategies.find? (fun s => s.id == strategy_id) = none := by
    rw [List.find?_eq_none]
    intro s hs
    simpa using h s hs
  have h1 : analyze_strategy_performance strategies symbols trades strategy_id now days
      = PerfResult.notFound := by
    unfold analyze_strategy_performance
    rw [hf]
  refine ⟨h1, fun report hr => ?_⟩
  rw [h1] at hr
  exact PerfResult.noConfusion hr

theorem C7_witness :
    (∀ s ∈ [(⟨1, "S", "T", "R"⟩ : Strategy)], s.id ≠ 7) ∧
    analyze_strategy_performance [⟨1, "S", "T", "R"⟩] [] [] 7 0 30 = PerfResult.notFound :=
  ⟨by decide, (C7_strategy_not_found [⟨1, "S", "T", "R"⟩] [] [] 7 0 30 (by decide)).1⟩

/-- Membership, duplicate-freedom and order of a sorted deduplicated key
list (the embedding of a pandas `groupby` key sequence). -/
theorem mem_sortedDedup {α : Type} [LinearOrder α] [DecidableEq α] {l : List α} {x : α} :
    x ∈ List.insertionSort (· ≤ ·) l.dedup ↔ x ∈ l :=
  (List.perm_insertionSort (· ≤ ·) _).mem_iff.trans List.mem_dedup

theorem nodup_sortedDedup {α : Type} [LinearOrder α] [DecidableEq α] (l : List α) :
    (List.insertionSort (· ≤ ·) l.dedup).Nodup :=
  (List.perm_insertionSort (· ≤ ·) _).symm.nodup (List.nodup_dedup l)

/-- Closed form of `analyze_strategy_performance` when the strategy exists
and the joined trade set is non-empty. -/
theorem analyze_strategy_performance_of_ne (strategies : List Strategy)
    (symbols : List Symbol) (trades : List Trade) (strategy_id now days : Nat)
    (st : Strategy)
    (hfind : strategies.find? (fun s => s.id == strategy_id) = some st)
    (h : strategy_trades trades symbols strategy_id now days ≠ []) :
    analyze_strategy_performance strategies symbols trades strategy_id now days =
      PerfResult.ok
        { strategy_name := st.name
          strategy_type := st.type
          risk_profile := st.risk_profile
          trade_count := (strategy_trades trades symbols strategy_id now days).length
          performance_summary :=
            { total_value :=
                ((strategy_trades trades symbols strategy_id now days).map TradeRow.value).sum
              daily_average :=
                if 0 < (daily_perf (strategy_trades trades symbols strategy_id now days)).length
                then ((strategy_trades trades symbols strategy_id now days).map TradeRow.value).sum
                  / (daily_perf (strategy_trades trades symbols strategy_id now days)).length
                else 0
              trade_count := some (strategy_trades trades symbols strategy_id now days).length
              unique_symbols := some
                ((strategy_trades trades symbols strategy_id now days).map TradeRow.symbol).dedup.length }
          asset_class_breakdown := some
            (asset_class_breakdown_list (strategy_trades trades symbols strategy_id now days))
          top_symbols := some
            (top_symbols_list (strategy_trades trades symbols strategy_id now days))
          daily_performance := daily_perf (strategy_trades trades symbols strategy_id now days) } := by
  have he : (strategy_trades trades symbols strategy_id now days).isEmpty = false := by
    simpa [List.isEmpty_iff] using h
  unfold analyze_strategy_performance
  rw [hfind]
  simp [he]

/-- C8 as frozen is falsified on the result shape: for an existing strategy
with no trades in the window the code returns a dict with *no*
`asset_class_breakdown` or `top_symbols` key (and a summary carrying only
`total_value` and `daily_average`), not one with empty breakdown lists. -/
theorem C8_counterexample :
    analyze_strategy_performance [⟨1, "S", "T", "R"⟩] [] [] 1 0 30 =
      PerfResult.ok
        { strategy_name := "S"
          strategy_type := "T"
          risk_profile := "R"
          trade_count := 0
          performance_summary :=
            { total_value := 0, daily_average := 0, trade_count := none, unique_symbols := none }
          asset_class_breakdown := none
          top_symbols := none
          daily_performance := [] } ∧
    analyze_strategy_performance [⟨1, "S", "T", "R"⟩] [] [] 1 0 30 ≠
      PerfResult.ok
        { strategy_name := "S"
          strategy_type := "T"
          risk_profile := "R"
          trade_count := 0
          performance_summary :=
            { total_value := 0, daily_average := 0, trade_count := none, unique_symbols := none }
          asset_class_breakdown := some []
          top_symbols := some []
          daily_performance := [] } := by
  constructor
  · rfl
  · decide

/-- C8 (amended): for an existing strategy with no joined trades in the
window, the result carries the strategy's descriptive fields with trade
count `0`, total value `0`, daily average `0`, an empty daily performance
series, and *omits* the breakdown fields entirely (no `top_symbols` or
`asset_class_breakdown` key, rather than empty lists), without faulting on
the empty join. -/
theorem C8_empty_strategy_window (strategies : List Strategy) (symbols : List Symbol)
    (trades : List Trade) (strategy_id now days : Nat) (st : Strategy)
    (hfind : strategies.find? (fun s => s.id == strategy_id) = some st)
    (hrows : strategy_trades trades symbols strategy_id now days = []) :
    analyze_strategy_performance strategies symbols trades strategy_id now days =
      PerfResult.ok
        { strategy_name := st.name
          strategy_type := st.type
          risk_profile := st.risk_profile
          trade_count := 0
          performance_summary :=
            { total_value := 0, daily_average := 0, trade_count := none, unique_symbols := none }
          asset_class_breakdown := none
          top_symbols := none
          daily_performance := [] } := by
  unfold analyze_strategy_performance
  rw [hfind]
  simp [hrows]

theorem C8_witness :
    [(⟨1, "Alpha", "Momentum", "High"⟩ : Strategy)].find? (fun s => s.id == 1)
        = some ⟨1, "Alpha", "Momentum", "High"⟩ ∧
    strategy_trades [] [] 1 0 30 = [] ∧
    analyze_strategy_performance [⟨1, "Alpha", "Momentum", "High"⟩] [] [] 1 0 30 =
      PerfResult.ok
        { strategy_name := "Alpha"
          strategy_type := "Momentum"
          risk_profile := "High"
          trade_count := 0
          performance_summary :=
            { total_value := 0, daily_average := 0, trade_count := none, unique_symbols := none }
          asset_class_breakdown := none
          top_symbols := none
          daily_performance := [] } :=
  ⟨by decide, by decide,
    C8_empty_strategy_window [⟨1, "Alpha", "Momentum", "High"⟩] [] [] 1 0 30
      ⟨1, "Alpha", "Momentum", "High"⟩ (by decide) (by decide)⟩

/-- C9: on a non-empty joined trade set, the `top_symbols` list has one
entry per ticker it mentions (duplicate-free tickers drawn from the joined
rows), each entry's value being the sum of `total_value` over that ticker's
rows; it is sorted descending by summed value, has at most 10 entries, and
each percentage is the entry's value divided by the strategy's grand total
times 100. -/
theorem C9_top_symbols (strategies : List Strategy) (symbols : List Symbol)
    (trades : List Trade) (strategy_id now days : Nat) (st : Strategy)
    (hfind : strategies.find? (fun s => s.id == strategy_id) = some st)
    (hrows : strategy_trades trades symbols strategy_id now days ≠ []) :
    ∃ report l,
      analyze_strategy_performance strategies symbols trades strategy_id now days
          = PerfResult.ok report ∧
      report.top_symbols = some l ∧
      l.length ≤ 10 ∧
      List.Pairwise (fun a b : SymbolEntry => b.value ≤ a.value) l ∧
      (l.map SymbolEntry.symbol).Nodup ∧
      (∀ e ∈ l,
        e.symbol ∈ (strategy_trades trades symbols strategy_id now days).map TradeRow.symbol ∧
        e.value = (((strategy_trades trades symbols strategy_id now days).filter
            fun r => decide (r.symbol = e.symbol)).map TradeRow.value).sum ∧
        e.percentage = e.value
          / ((strategy_trades trades symbols strategy_id now days).map TradeRow.value).sum
          * 100) := by
  rw [analyze_strategy_performance_of_ne strategies symbols trades strategy_id now days st
    hfind hrows]
  refine ⟨_, top_symbols_list (strategy_trades trades symbols strategy_id now days),
    rfl, rfl, ?_, ?_, ?_, ?_⟩
  · rw [top_symbols_list, List.length_map, List.length_take]
    exact min_le_left _ _
  · rw [top_symbols_list, List.pairwise_map]
    exact ((List.sorted_insertionSort valueDesc _).sublist
      (List.take_sublist 10 _)).imp fun hab => hab
  · rw [top_symbols_list, List.map_map]
    have : ((List.insertionSort valueDesc
        (groupedBySymbol (strategy_trades trades symbols strategy_id now days))).map
          Prod.fst).Nodup := by
      apply ((List.perm_insertionSort valueDesc _).map Prod.fst).symm.nodup
      rw [groupedBySymbol, List.map_map]
      have hkeys : (List.insertionSort (· ≤ ·)
          ((strategy_trades trades symbols strategy_id now days).map TradeRow.symbol).dedup).Nodup :=
        nodup_sortedDedup _
      simpa [Function.comp_def] using hkeys
    have hsub := (List.take_sublist 10 (List.insertionSort valueDesc
      (groupedBySymbol (strategy_trades trades symbols strategy_id now days)))).map Prod.fst
    exact this.sublist hsub
  · intro e he
    rw [top_symbols_list] at he
    obtain ⟨p, hp, rfl⟩ := List.mem_map.mp he
    have hp' : p ∈ List.insertionSort valueDesc
        (groupedBySymbol (strategy_trades trades symbols strategy_id now days)) :=
      (List.take_sublist 10 _).subset hp
    have hpg : p ∈ groupedBySymbol (strategy_trades trades symbols strategy_id now days) :=
      (List.perm_insertionSort valueDesc _).mem_iff.mp hp'
    rw [groupedBySymbol] at hpg
    obtain ⟨s, hs, rfl⟩ := List.mem_map.mp hpg
    exact ⟨mem_sortedDedup.mp hs, rfl, rfl⟩

theorem C9_witness :
    [(⟨1, "S", "T", "R"⟩ : Strategy)].find? (fun s => s.id == 1) = some ⟨1, "S", "T", "R"⟩ ∧
    strategy_trades [⟨1, 0, 1, 100, 100, 2, 3, 1⟩] [⟨2, "A", "Equity", "X"⟩] 1 86400 30 ≠ [] ∧
    ∃ report l,
      analyze_strategy_performance [⟨1, "S", "T", "R"⟩] [⟨2, "A", "Equity", "X"⟩]
          [⟨1, 0, 1, 100, 100, 2, 3, 1⟩] 1 86400 30 = PerfResult.ok report ∧
      report.top_symbols = some l ∧ l.length ≤ 10 := by
  have hfind : [(⟨1, "S", "T", "R"⟩ : Strategy)].find? (fun s => s.id == 1)
      = some ⟨1, "S", "T", "R"⟩ := by decide
  have hrows : strategy_trades [⟨1, 0, 1, 100, 100, 2, 3, 1⟩] [⟨2, "A", "Equity", "X"⟩]
      1 86400 30 ≠ [] := by decide
  obtain ⟨report, l, h1, h2, h3, -, -, -⟩ := C9_top_symbols [⟨1, "S", "T", "R"⟩]
    [⟨2, "A", "Equity", "X"⟩] [⟨1, 0, 1, 100, 100, 2, 3, 1⟩] 1 86400 30 ⟨1, "S", "T", "R"⟩
    hfind hrows
  exact ⟨hfind, hrows, report, l, h1, h2, h3⟩

/-- C10: a supplied filter value of `0` is ignored exactly like an absent
filter, for both dimensions — the Python guards are the truthiness tests
`if strategy_id:` / `if symbol_id:`. -/
theorem C10_zero_filter_ignored (trades : List Trade) (now days : Nat) :
    (∀ symbol_id, calculate_trading_metrics trades (some 0) symbol_id now days
        = calculate_trading_metrics trades none symbol_id now days) ∧
    (∀ strategy_id, calculate_trading_metrics trades strategy_id (some 0) now days
        = calculate_trading_metrics trades strategy_id none now days) :=
  ⟨fun _ => rfl, fun _ => rfl⟩

end BI
